import Mathlib

/-!
Verification of the `tembo-telemetry` crate (`src/lib.rs`) via a shallow
embedding in Lean.

The crate has two components:

* `TelemetryConfig` / `TelemetryInit::init`: configuration-driven installation
  of a propagator, an optional OTLP batch-export pipeline, and a global
  logging/tracing subscriber whose format depends on the `env` field.
* A route-filtered request logger: `CustomLoggerBuilder` accumulates excluded
  paths and `build()` writes them into the thread-local `EXCLUDED_ROUTES`;
  `CustomFilterRootSpanBuilder::on_request_start` suppresses the root span for
  requests whose path is contained in that list.

Global effects (propagator installation, pipeline construction, subscriber
installation, panics of `.expect`, `?`-propagated errors) are embedded as an
explicit effect record plus an outcome, with the fallibility of the external
calls (`install_batch`, `set_global_default`, `LogTracer::init`) given as
boolean inputs.  Thread-local storage is embedded as a function from thread
identifiers to the per-thread value.
-/

/-! ## Route-filtered request logger (`EXCLUDED_ROUTES`, builder, span filter) -/

/-- Thread identifiers, used to index thread-local storage. -/
abbrev ThreadId := Nat

/-- The state of the `thread_local! EXCLUDED_ROUTES: RefCell<Vec<String>>`
storage: each thread has its own list of excluded routes.  A thread that has
never written to it sees the initializer value `Vec::new()`, i.e. `[]`. -/
abbrev ExcludedRoutesState := ThreadId → List String

/-- The initializer of the thread-local `EXCLUDED_ROUTES` cell: every thread
starts with the empty vector. -/
def EXCLUDED_ROUTES_initial : ExcludedRoutesState := fun _ => []

/-- `CustomFilterRootSpanBuilder::set_excluded_routes(routes)`: overwrites the
calling thread's `EXCLUDED_ROUTES` cell with `routes`
(`*excluded.borrow_mut() = routes`).  Only the calling thread's cell changes. -/
def set_excluded_routes (tid : ThreadId) (routes : List String)
    (s : ExcludedRoutesState) : ExcludedRoutesState :=
  fun t => if t = tid then routes else s t

/-- An actix `ServiceRequest`, restricted to the one field the filter reads. -/
structure ServiceRequest where
  path : String
deriving DecidableEq

/-- The value returned by `on_request_start`: either `Span::none()` or the
root span produced by `tracing_actix_web::root_span!` for the request. -/
inductive Span where
  /-- `Span::none()`: a disabled span, no telemetry recorded. -/
  | noSpan : Span
  /-- A normal root span for the request with the given path. -/
  | rootSpan (path : String) : Span
deriving DecidableEq

/-- `CustomFilterRootSpanBuilder::on_request_start(request)`, run on thread
`tid` with thread-local state `s`: looks the request path up in the calling
thread's `EXCLUDED_ROUTES` (`excluded.borrow().contains(&request.path().to_string())`,
an exact `String` equality search) and returns `Span::none()` on a hit, the
normal root span otherwise. -/
def on_request_start (tid : ThreadId) (s : ExcludedRoutesState)
    (request : ServiceRequest) : Span :=
  let should_exclude := (s tid).contains request.path
  if should_exclude then Span.noSpan else Span.rootSpan request.path

/-- `CustomLoggerBuilder`: accumulates the routes to exclude. -/
structure CustomLoggerBuilder where
  excluded_routes : List String
deriving DecidableEq

/-- `CustomLoggerBuilder::new()`: no excluded routes. -/
def CustomLoggerBuilder.new : CustomLoggerBuilder :=
  { excluded_routes := [] }

/-- `CustomLoggerBuilder::exclude(route)`: pushes `route` onto the end of the
accumulated list and returns the builder. -/
def CustomLoggerBuilder.exclude (b : CustomLoggerBuilder) (route : String) :
    CustomLoggerBuilder :=
  { excluded_routes := b.excluded_routes ++ [route] }

/-- `CustomLoggerBuilder::build()`, run on thread `tid`: calls
`CustomFilterRootSpanBuilder::set_excluded_routes(self.excluded_routes)`,
i.e. overwrites the calling thread's `EXCLUDED_ROUTES` cell.  (The returned
`TracingLogger` value carries no data of its own; the state effect is the
embedded result.) -/
def CustomLoggerBuilder.build (b : CustomLoggerBuilder) (tid : ThreadId)
    (s : ExcludedRoutesState) : ExcludedRoutesState :=
  set_excluded_routes tid b.excluded_routes s

/-! ## Telemetry configuration and the `init` routine -/

/-- `TelemetryConfig` (`src/lib.rs`): application identity and exporter
target.  Mirrors the Rust struct field for field. -/
structure TelemetryConfig where
  app_name : String
  env : String
  endpoint_url : Option String
  tracer_id : Option String
deriving DecidableEq

/-- The `#[derive(Default)]` instance: empty strings and `None` options. -/
instance : Inhabited TelemetryConfig :=
  ⟨{ app_name := "", env := "", endpoint_url := none, tracer_id := none }⟩

/-- The sampler choices of the `opentelemetry_sdk::trace::Sampler` enum (the
variants relevant to sampling semantics; the source always picks
`Sampler::AlwaysOn`). -/
inductive Sampler where
  | alwaysOn : Sampler
  | alwaysOff : Sampler
  /-- Probabilistic sampling with the given rational probability. -/
  | traceIdRatioBased (num den : Nat) : Sampler
deriving DecidableEq

/-- `opentelemetry_sdk::trace::config()` result as built in `init`: a sampler
plus a resource, the resource being a list of key/value attributes. -/
structure TraceConfig where
  sampler : Sampler
  resource : List (String × String)
deriving DecidableEq

/-- The batch-export pipeline built by
`opentelemetry_otlp::new_pipeline().tracing().with_exporter(...).with_trace_config(...)`:
the exporter's endpoint together with the trace configuration. -/
structure PipelineConfig where
  endpoint : String
  trace_config : TraceConfig
deriving DecidableEq

/-- The formatting layers `fmt::layer().compact()` and `fmt::layer().json()`. -/
inductive FmtKind where
  | compact : FmtKind
  | json : FmtKind
deriving DecidableEq

/-- A `tracing_subscriber` formatting layer as configured by `init`: its kind
and whether span-lifecycle (start/end) events are emitted.  `FmtSpan::NONE`
(the default, and what the json branch sets explicitly) is `false`. -/
structure FmtLayer where
  kind : FmtKind
  span_events : Bool
deriving DecidableEq

/-- The externally-visible global effects accumulated by a run of `init`. -/
structure Effects where
  /-- `global::set_text_map_propagator(TraceContextPropagator::new())` ran. -/
  propagator_set : Bool
  /-- The batch-export pipeline installed by `install_batch`, if any. -/
  pipeline_built : Option PipelineConfig
  /-- The subscriber includes the `tracing_opentelemetry` bridge layer. -/
  telemetry_layer : Bool
  /-- The formatting layer of the globally installed subscriber, if any. -/
  subscriber_installed : Option FmtLayer
  /-- `global::tracer(name)` was called with this name. -/
  global_tracer : Option String
  /-- `tracing_log::LogTracer::init()` succeeded. -/
  log_tracer_installed : Bool
deriving DecidableEq

/-- The effects before any step of `init` has run the fallible calls:
only the propagator has been installed (it is set unconditionally first). -/
def Effects.start : Effects :=
  { propagator_set := true
    pipeline_built := none
    telemetry_layer := false
    subscriber_installed := none
    global_tracer := none
    log_tracer_installed := false }

/-- The failure modes of the external calls inside `init`, supplied as an
input environment: whether `install_batch` fails, whether a global default
subscriber is already installed (making `set_global_default` return an error,
which `.expect` turns into a panic), and whether `LogTracer::init` fails. -/
structure InitWorld where
  install_batch_fails : Bool
  global_default_set : Bool
  log_tracer_init_fails : Bool
deriving DecidableEq

/-- The typed errors `init` propagates with `?`: `install_batch` failure
(exporter/pipeline construction) and `LogTracer::init` failure. -/
inductive InitError where
  | exporterConstruction : InitError
  | logTracerInit : InitError
deriving DecidableEq

/-- How a run of `init` ends: `Ok(())`, a propagated `Err`, or a panic from
`.expect("setting default subscriber failed")`. -/
inductive InitTermination where
  | ok : InitTermination
  | err (e : InitError) : InitTermination
  | panicked (msg : String) : InitTermination
deriving DecidableEq

/-- A run of `init`: the effects performed and how it terminated. -/
structure InitOutcome where
  effects : Effects
  result : InitTermination
deriving DecidableEq

/-- The tail of `init` after the subscriber has been installed: optionally
registers a named global tracer (`if let Some(tracer_id) = &self.tracer_id`),
then bridges the `log` crate (`tracing_log::LogTracer::init()?`) and returns
`Ok(())`. -/
def initAfterSubscriber (self : TelemetryConfig) (w : InitWorld)
    (eff : Effects) : InitOutcome :=
  let eff :=
    match self.tracer_id with
    | some tracer_id => { eff with global_tracer := some tracer_id }
    | none => eff
  if w.log_tracer_init_fails then
    { effects := eff, result := InitTermination.err InitError.logTracerInit }
  else
    { effects := { eff with log_tracer_installed := true }
      result := InitTermination.ok }

/-- `TelemetryConfig::init` (the `TelemetryInit` impl), step by step:
sampler `AlwaysOn`; resource `[("service.name", app_name)]`; propagator set;
then a match on `endpoint_url` — in the `Some` branch the exporter and batch
pipeline are built (`?` on failure) and the subscriber combines the telemetry
bridge layer with a compact layer when `env == "development"`, else a json
layer with `FmtSpan::NONE`; in the `None` branch the same formatting choice is
made without any pipeline.  `set_global_default` panics via `.expect` when a
default is already installed.  Finally the tracer registration and the
`LogTracer` bridge run. -/
def TelemetryConfig.init (self : TelemetryConfig) (w : InitWorld) : InitOutcome :=
  let sampler := Sampler.alwaysOn
  let resource := [("service.name", self.app_name)]
  let trace_config : TraceConfig := { sampler := sampler, resource := resource }
  let eff := Effects.start
  match self.endpoint_url with
  | some endpoint_url =>
    if w.install_batch_fails then
      { effects := eff
        result := InitTermination.err InitError.exporterConstruction }
    else
      let eff := { eff with
        pipeline_built := some { endpoint := endpoint_url, trace_config := trace_config }
        telemetry_layer := true }
      if self.env = "development" then
        if w.global_default_set then
          { effects := eff
            result := InitTermination.panicked "setting default subscriber failed" }
        else
          let eff := { eff with
            subscriber_installed := some { kind := FmtKind.compact, span_events := false } }
          initAfterSubscriber self w eff
      else
        if w.global_default_set then
          { effects := eff
            result := InitTermination.panicked "setting default subscriber failed" }
        else
          let eff := { eff with
            subscriber_installed := some { kind := FmtKind.json, span_events := false } }
          initAfterSubscriber self w eff
  | none =>
    if self.env = "development" then
      if w.global_default_set then
        { effects := eff
          result := InitTermination.panicked "setting default subscriber failed" }
      else
        let eff := { eff with
          subscriber_installed := some { kind := FmtKind.compact, span_events := false } }
        initAfterSubscriber self w eff
    else
      if w.global_default_set then
        { effects := eff
          result := InitTermination.panicked "setting default subscriber failed" }
      else
        let eff := { eff with
          subscriber_installed := some { kind := FmtKind.json, span_events := false } }
        initAfterSubscriber self w eff

/-! ## `get_trace_id` -/

/-- An OpenTelemetry `SpanContext`, restricted to the trace id (a `u128` in
the library; a trace id is valid exactly when it is nonzero). -/
structure SpanContext where
  trace_id : Nat
deriving DecidableEq

/-- `TraceId::INVALID`: the all-zero trace id. -/
def TraceId.invalid : Nat := 0

/-- The ambient execution context seen by `tracing::Span::current().context()`:
`some sc` when an active span with OpenTelemetry span context `sc` is attached
to the current context, `none` when no span is active. -/
abbrev AmbientContext := Option SpanContext

/-- Modelled from the spec: the library chain
`Context::span().span_context()` (code of the `opentelemetry` collaborator,
not under `src/`) — on a context with no active span it yields the no-op
span, whose span context carries the zero/invalid trace id. -/
def contextSpanContext : AmbientContext → SpanContext
  | some sc => sc
  | none => { trace_id := TraceId.invalid }

/-- `TelemetryConfig::get_trace_id`: reads
`Span::current().context().span().span_context().trace_id()`.  The receiver
`self` is never consulted and no state is modified. -/
def TelemetryConfig.get_trace_id (_self : TelemetryConfig)
    (ambient : AmbientContext) : Nat :=
  (contextSpanContext ambient).trace_id

/-- A concrete production configuration without a collector endpoint. -/
def cfgProd : TelemetryConfig :=
  { app_name := "app", env := "production", endpoint_url := none,
    tracer_id := none }

/-- `cfgProd` with a collector endpoint configured. -/
def cfgProdEndpoint : TelemetryConfig :=
  { cfgProd with endpoint_url := some "http://collector:4317" }

/-- The run environment in which every external call succeeds. -/
def worldOk : InitWorld :=
  { install_batch_fails := false, global_default_set := false,
    log_tracer_init_fails := false }

/-! ## Theorems -/

/-- C1: for every exclusion list `L` and request `r`, `on_request_start`
returns the no-op span iff the request path is, as an exact case-sensitive
string, an element of `L`; with `L = ["/health/liveness"]` the path
`/health/liveness` yields no span while `/health/liveness/x` and
`/Health/Liveness` yield normal root spans. -/
theorem c1_exact_match_exclusion :
    (∀ (L : List String) (tid : ThreadId) (s : ExcludedRoutesState)
        (r : ServiceRequest),
      on_request_start tid (set_excluded_routes tid L s) r = Span.noSpan ↔
        r.path ∈ L) ∧
    on_request_start 0
      (set_excluded_routes 0 ["/health/liveness"] EXCLUDED_ROUTES_initial)
      { path := "/health/liveness" } = Span.noSpan ∧
    on_request_start 0
      (set_excluded_routes 0 ["/health/liveness"] EXCLUDED_ROUTES_initial)
      { path := "/health/liveness/x" } = Span.rootSpan "/health/liveness/x" ∧
    on_request_start 0
      (set_excluded_routes 0 ["/health/liveness"] EXCLUDED_ROUTES_initial)
      { path := "/Health/Liveness" } = Span.rootSpan "/Health/Liveness" := by
  refine ⟨fun L tid s r => ?_, by decide, by decide, by decide⟩
  by_cases h : r.path ∈ L <;>
    simp [on_request_start, set_excluded_routes, h]

/-- C2 counterexample: `build()` run on thread 0 publishes
`["/health/liveness"]` into thread 0's cell only; thread 1 still reads the
empty list, and `on_request_start` on thread 1 produces a normal root span
for `/health/liveness` — so the published list is not a single process-wide
value readable with the same contents by every request-handling thread. -/
theorem c2_counterexample :
    ((CustomLoggerBuilder.new.exclude "/health/liveness").build 0
      EXCLUDED_ROUTES_initial) 0 = ["/health/liveness"] ∧
    ((CustomLoggerBuilder.new.exclude "/health/liveness").build 0
      EXCLUDED_ROUTES_initial) 1 = [] ∧
    on_request_start 1
      ((CustomLoggerBuilder.new.exclude "/health/liveness").build 0
        EXCLUDED_ROUTES_initial)
      { path := "/health/liveness" } = Span.rootSpan "/health/liveness" := by
  decide

/-- C2 (amended): the exclusion list storage is thread-local, not
process-wide: `build()` overwrites exactly the calling thread's cell with the
builder's accumulated routes, and every other thread's cell is unchanged (so
a thread that never wrote still reads its initializer value).  Reads need no
synchronization because each thread only ever touches its own cell. -/
theorem c2_thread_local_publication (b : CustomLoggerBuilder)
    (tid tid' : ThreadId) (s : ExcludedRoutesState) (h : tid' ≠ tid) :
    (b.build tid s) tid = b.excluded_routes ∧
    (b.build tid s) tid' = s tid' := by
  constructor <;> simp [CustomLoggerBuilder.build, set_excluded_routes, h]

/-- Witness for `c2_thread_local_publication` at threads 0 and 1. -/
theorem c2_thread_local_publication_witness :
    (1 : ThreadId) ≠ 0 ∧
    (((CustomLoggerBuilder.new.exclude "/a").build 0
        EXCLUDED_ROUTES_initial) 0 =
      (CustomLoggerBuilder.new.exclude "/a").excluded_routes ∧
     ((CustomLoggerBuilder.new.exclude "/a").build 0
        EXCLUDED_ROUTES_initial) 1 = EXCLUDED_ROUTES_initial 1) :=
  ⟨by decide,
   c2_thread_local_publication (CustomLoggerBuilder.new.exclude "/a") 0 1
     EXCLUDED_ROUTES_initial (by decide)⟩

/-- Folding `exclude` over a list of routes appends them in order. -/
theorem exclude_foldl (acc : List String) (ps : List String) :
    (ps.foldl CustomLoggerBuilder.exclude
        { excluded_routes := acc }).excluded_routes = acc ++ ps := by
  induction ps generalizing acc with
  | nil => simp
  | cons p ps ih =>
    simp [List.foldl_cons, CustomLoggerBuilder.exclude, ih]

/-- C3: `new().exclude(p1)...exclude(pn).build()` publishes, in the calling
thread's cell, exactly `[p1, ..., pn]` in insertion order; and a later
`build()` from a separate builder replaces that thread's previously published
list entirely (last writer wins), rather than appending to it. -/
theorem c3_builder_composition :
    (∀ (ps : List String) (tid : ThreadId) (s : ExcludedRoutesState),
      ((ps.foldl CustomLoggerBuilder.exclude CustomLoggerBuilder.new).build
        tid s) tid = ps) ∧
    (∀ (b1 b2 : CustomLoggerBuilder) (tid : ThreadId)
        (s : ExcludedRoutesState),
      (b2.build tid (b1.build tid s)) tid = b2.excluded_routes) := by
  constructor
  · intro ps tid s
    simp [CustomLoggerBuilder.build, set_excluded_routes,
      CustomLoggerBuilder.new, exclude_foldl]
  · intro b1 b2 tid s
    simp [CustomLoggerBuilder.build, set_excluded_routes]

/-- C9: `exclude` accepts any string, including the empty string, without
error (it just appends it); and for a request whose path is a real request
path (real paths are non-empty, they begin with `/`), empty-string entries of
the exclusion list never match, so removing them from the list never changes
the span decision. -/
theorem c9_permissive_empty_entry :
    (∀ (b : CustomLoggerBuilder),
      (b.exclude "").excluded_routes = b.excluded_routes ++ [""]) ∧
    (∀ (L : List String) (tid : ThreadId) (s : ExcludedRoutesState)
        (r : ServiceRequest),
      r.path ≠ "" →
      on_request_start tid (set_excluded_routes tid L s) r =
        on_request_start tid
          (set_excluded_routes tid (L.filter (fun x => x ≠ "")) s) r) := by
  refine ⟨fun b => rfl, fun L tid s r hne => ?_⟩
  simp [on_request_start, set_excluded_routes, hne]

/-- Witness for `c9_permissive_empty_entry`: exclusion list `["", "/x"]` and
request path `/x`. -/
theorem c9_permissive_empty_entry_witness :
    ("/x" : String) ≠ "" ∧
    on_request_start 0 (set_excluded_routes 0 ["", "/x"]
      EXCLUDED_ROUTES_initial) { path := "/x" } =
      on_request_start 0
        (set_excluded_routes 0 (["", "/x"].filter (fun x => x ≠ ""))
          EXCLUDED_ROUTES_initial) { path := "/x" } :=
  ⟨by decide,
   c9_permissive_empty_entry.2 ["", "/x"] 0 EXCLUDED_ROUTES_initial
     { path := "/x" } (by decide)⟩

/-- The formatting layer `init` installs, fully characterized: nothing is
installed when the run errors out of `install_batch` or panics in
`set_global_default`; otherwise the layer is compact exactly for
`env = "development"`, json otherwise, with span-lifecycle events off. -/
theorem subscriber_installed_eq (cfg : TelemetryConfig) (w : InitWorld) :
    (cfg.init w).effects.subscriber_installed =
      if (cfg.endpoint_url.isSome && w.install_batch_fails) ||
          w.global_default_set then none
      else some
        { kind := if cfg.env = "development" then FmtKind.compact
                  else FmtKind.json
          span_events := false } := by
  rcases cfg with ⟨an, env, epu, trid⟩
  rcases w with ⟨ib, gd, lt⟩
  rcases epu with _ | u <;> rcases trid with _ | t <;>
    cases ib <;> cases gd <;> cases lt <;>
      by_cases he : env = "development" <;>
        simp [TelemetryConfig.init, initAfterSubscriber, Effects.start, he]

/-- C4: whenever `init` installs a formatting layer, the layer is the compact
text layer exactly when `env` equals `"development"` (case-sensitive), and
for every other environment it is the json layer with span-lifecycle events
suppressed; and (given `install_batch` does not fail) the installed layer is
the same whether `endpoint_url` is `some u` or `none`. -/
theorem c4_log_format_by_environment :
    (∀ (cfg : TelemetryConfig) (w : InitWorld) (l : FmtLayer),
      (cfg.init w).effects.subscriber_installed = some l →
        ((l.kind = FmtKind.compact ↔ cfg.env = "development") ∧
         (cfg.env ≠ "development" →
           l.kind = FmtKind.json ∧ l.span_events = false))) ∧
    (∀ (cfg : TelemetryConfig) (w : InitWorld) (u : String),
      w.install_batch_fails = false →
        (TelemetryConfig.init { cfg with endpoint_url := some u }
            w).effects.subscriber_installed =
        (TelemetryConfig.init { cfg with endpoint_url := none }
            w).effects.subscriber_installed) := by
  constructor
  · intro cfg w l h
    rw [subscriber_installed_eq] at h
    by_cases he : cfg.env = "development" <;>
      [skip; skip] <;>
      · simp only [he] at h
        split at h
        · exact absurd h (by simp)
        · simp at h
          subst h
          simp [he]
  · intro cfg w u hb
    rw [subscriber_installed_eq, subscriber_installed_eq]
    simp [hb]

/-- Witness for `c4_log_format_by_environment`: a json layer installed for
`env = "production"`, and the endpoint-independence at a concrete config. -/
theorem c4_log_format_by_environment_witness :
    (cfgProd.init worldOk).effects.subscriber_installed =
      some { kind := FmtKind.json, span_events := false } ∧
    ((cfgProd.init worldOk).effects.subscriber_installed =
        some { kind := FmtKind.json, span_events := false } →
      (({ kind := FmtKind.json, span_events := false } : FmtLayer).kind =
          FmtKind.compact ↔ cfgProd.env = "development")) ∧
    (TelemetryConfig.init { cfgProd with
        endpoint_url := some "http://collector:4317" }
      worldOk).effects.subscriber_installed =
      (TelemetryConfig.init { cfgProd with endpoint_url := none }
        worldOk).effects.subscriber_installed := by
  refine ⟨by decide, fun h => ?_, ?_⟩
  · exact (c4_log_format_by_environment.1 cfgProd worldOk
      { kind := FmtKind.json, span_events := false } h).1
  · exact c4_log_format_by_environment.2 cfgProd worldOk
      "http://collector:4317" rfl

/-- C5: with `endpoint_url = None`, `init` never constructs an exporter or
batch-export pipeline and never includes the telemetry bridge layer, on every
run (whatever the external calls would have done). -/
theorem c5_no_pipeline_without_endpoint (cfg : TelemetryConfig)
    (w : InitWorld) (h : cfg.endpoint_url = none) :
    (cfg.init w).effects.pipeline_built = none ∧
    (cfg.init w).effects.telemetry_layer = false := by
  rcases cfg with ⟨an, env, epu, trid⟩
  subst h
  rcases w with ⟨ib, gd, lt⟩
  rcases trid with _ | t <;>
    cases ib <;> cases gd <;> cases lt <;>
      by_cases he : env = "development" <;>
        simp [TelemetryConfig.init, initAfterSubscriber, Effects.start, he]

/-- Witness for `c5_no_pipeline_without_endpoint` at `cfgProd`. -/
theorem c5_no_pipeline_without_endpoint_witness :
    cfgProd.endpoint_url = none ∧
    ((cfgProd.init worldOk).effects.pipeline_built = none ∧
     (cfgProd.init worldOk).effects.telemetry_layer = false) :=
  ⟨rfl, c5_no_pipeline_without_endpoint cfgProd worldOk rfl⟩

/-- C6: full characterization of how `init` terminates.  Exporter/pipeline
construction failure surfaces as a typed `Err` (it is the first fallible
step, so it wins); otherwise an already-installed global default subscriber
makes `init` panic (the `.expect`), not return `Err`; otherwise a
`LogTracer::init` failure surfaces as a typed `Err`; in all remaining cases
`init` returns `Ok(())`. -/
theorem c6_error_surfacing (cfg : TelemetryConfig) (w : InitWorld) :
    ((cfg.init w).result = InitTermination.err InitError.exporterConstruction ↔
      cfg.endpoint_url.isSome = true ∧ w.install_batch_fails = true) ∧
    ((∃ msg, (cfg.init w).result = InitTermination.panicked msg) ↔
      ¬(cfg.endpoint_url.isSome = true ∧ w.install_batch_fails = true) ∧
        w.global_default_set = true) ∧
    ((cfg.init w).result = InitTermination.err InitError.logTracerInit ↔
      ¬(cfg.endpoint_url.isSome = true ∧ w.install_batch_fails = true) ∧
        w.global_default_set = false ∧ w.log_tracer_init_fails = true) ∧
    ((cfg.init w).result = InitTermination.ok ↔
      ¬(cfg.endpoint_url.isSome = true ∧ w.install_batch_fails = true) ∧
        w.global_default_set = false ∧ w.log_tracer_init_fails = false) := by
  rcases cfg with ⟨an, env, epu, trid⟩
  rcases w with ⟨ib, gd, lt⟩
  rcases epu with _ | u <;> rcases trid with _ | t <;>
    cases ib <;> cases gd <;> cases lt <;>
      by_cases he : env = "development" <;>
        simp [TelemetryConfig.init, initAfterSubscriber, he]

/-- C7: `get_trace_id` is total and pure — it returns the trace id of the
active span's context when one is present, and the well-defined zero/invalid
trace id when no span is active, for every configuration. -/
theorem c7_get_trace_id_total :
    (∀ (cfg : TelemetryConfig) (sc : SpanContext),
      cfg.get_trace_id (some sc) = sc.trace_id) ∧
    (∀ (cfg : TelemetryConfig),
      cfg.get_trace_id none = TraceId.invalid) :=
  ⟨fun _ _ => rfl, fun _ => rfl⟩

/-- C8: whenever `endpoint_url = Some u` and pipeline construction succeeds,
the pipeline `init` installs points at `u` and its trace configuration has
the always-on sampler and the resource attribute `service.name` equal to the
configuration's application name. -/
theorem c8_pipeline_trace_configuration (cfg : TelemetryConfig)
    (w : InitWorld) (u : String) (h : cfg.endpoint_url = some u)
    (hb : w.install_batch_fails = false) :
    (cfg.init w).effects.pipeline_built =
      some { endpoint := u
             trace_config :=
               { sampler := Sampler.alwaysOn
                 resource := [("service.name", cfg.app_name)] } } := by
  rcases cfg with ⟨an, env, epu, trid⟩
  subst h
  rcases w with ⟨ib, gd, lt⟩
  subst hb
  rcases trid with _ | t <;>
    cases gd <;> cases lt <;>
      by_cases he : env = "development" <;>
        simp [TelemetryConfig.init, initAfterSubscriber, Effects.start, he]

/-- Witness for `c8_pipeline_trace_configuration` at `cfgProdEndpoint`. -/
theorem c8_pipeline_trace_configuration_witness :
    cfgProdEndpoint.endpoint_url = some "http://collector:4317" ∧
    worldOk.install_batch_fails = false ∧
    (cfgProdEndpoint.init worldOk).effects.pipeline_built =
      some { endpoint := "http://collector:4317"
             trace_config :=
               { sampler := Sampler.alwaysOn
                 resource := [("service.name", cfgProdEndpoint.app_name)] } } :=
  ⟨rfl, rfl,
   c8_pipeline_trace_configuration cfgProdEndpoint worldOk
     "http://collector:4317" rfl rfl⟩

/-- C10: `get_trace_id` does not depend on the configuration it is called
on — two arbitrary configurations give the same trace id under the same
ambient span context. -/
theorem c10_get_trace_id_config_independence (c1 c2 : TelemetryConfig)
    (amb : AmbientContext) :
    c1.get_trace_id amb = c2.get_trace_id amb :=
  rfl
